import Mathlib

/-!
Shallow embedding of the moltworker gateway lifecycle orchestrator: the
container launch script (its restore decider, crash supervisor and the
embedded node config updater) and the worker-side gateway module
(process discovery, environment construction, readiness handling, and
the access middleware).

JavaScript and shell strings are modelled as Lean strings, with the
string operations re-implemented over character lists so that every
definition evaluates inside the kernel.  An absent (undefined)
environment value is `none`; JS truthiness of an optional string
(undefined and the empty string are falsy) is the `truthy` predicate.
-/

/-- JS truthiness of an optional string: undefined and the empty string are falsy. -/
def truthy : Option String → Bool
  | none => false
  | some s => !s.isEmpty

/-- Value of an optional string, empty when absent. -/
def strOfOpt : Option String → String
  | none => ""
  | some s => s

/-- JS disjunction on optional strings: the left value when truthy, else the right. -/
def orTruthy (a b : Option String) : Option String :=
  if truthy a then a else b

/-- JS startsWith. -/
def jsStartsWith (s p : String) : Bool :=
  p.toList.isPrefixOf s.toList

/-- JS endsWith, via reversed character lists. -/
def jsEndsWith (s suf : String) : Bool :=
  suf.toList.reverse.isPrefixOf s.toList.reverse

/-- Occurrence test of a character list inside another (JS includes, on lists). -/
def listContains (sub : List Char) : List Char → Bool
  | [] => sub.isEmpty
  | c :: rest => sub.isPrefixOf (c :: rest) || listContains sub rest

/-- JS includes. -/
def jsIncludes (s sub : String) : Bool :=
  listContains sub.toList s.toList

/-- Strip every trailing slash, as the replace with a trailing-slash regex does. -/
def stripTrailingSlashes (s : String) : String :=
  String.mk ((s.toList.reverse.dropWhile (fun ch => ch = '/')).reverse)

/-- Core of JS split with a one-character separator. -/
def splitChar (sep : Char) : List Char → List (List Char)
  | [] => [[]]
  | c :: rest =>
    if c = sep then [] :: splitChar sep rest
    else
      match splitChar sep rest with
      | [] => [[c]]
      | h :: t => (c :: h) :: t

/-- JS split with a one-character separator. -/
def jsSplitChar (s : String) (sep : Char) : List String :=
  (splitChar sep s.toList).map String.mk

/-- JS trim: drop whitespace from both ends. -/
def jsTrim (s : String) : String :=
  String.mk (((s.toList.dropWhile Char.isWhitespace).reverse.dropWhile Char.isWhitespace).reverse)

/-- JS string-or-default: the string itself when nonempty, else the default. -/
def jsOrDefault (s d : String) : String :=
  if s.isEmpty then d else s

/-!
Backup restore decider, from the launch script's shell function
should_restore_from_r2 (part_000 lines 65-99).  The external date
command is abstracted as a parse function; a parse failure echoes the
string zero, hence yields epoch 0.
-/

/-- Epoch seconds of a timestamp string: the parsed value, or 0 on parse failure
(the shell fallback writes the digit zero). -/
def epochOrZero (dateParse : String → Option Int) (t : String) : Int :=
  match dateParse t with
  | some e => e
  | none => 0

/-- Restore decision of the launch script (part_000 lines 65-99): no remote
timestamp file means no restore; a remote file without a local one means
restore; otherwise restore iff the remote epoch is strictly greater. -/
def should_restore_from_r2 (dateParse : String → Option Int)
    (remoteSync localSync : Option String) : Bool :=
  match remoteSync with
  | none => false
  | some rt =>
    match localSync with
    | none => true
    | some lt => decide (epochOrZero dateParse rt > epochOrZero dateParse lt)

/-!
Crash fallback responder, from the launch script (part_000 lines
416-431 and 441-447).  The shell runs the gateway command and, through
the shell or-else operator, calls keep_alive_on_crash with the exit
code only when that exit code is nonzero.
-/

/-- Last 50 lines of the log, as tail -n 50 produces. -/
def tail50 (logLines : List String) : List String :=
  logLines.drop (logLines.length - 50)

/-- Fixed diagnostic payload served on every connection in the degraded state:
the HTTP preamble, the exit code, and the last 50 log lines. -/
def crashResponse (exitCode : Nat) (logLines : List String) : String :=
  ("HTTP/1.1 200 OK\r\nContent-Type: text/plain; charset=utf-8\r\n\r\nCRASH DETECTED (" ++
    (("Exit code: " ++ toString exitCode) ++ ")\n\n--- LAST 50 LINES OF LOG ---\n\n")) ++
    String.join ((tail50 logLines).map (fun line => line ++ "\n"))

/-- The degraded-state responder: every connection (indexed by an arbitrary
counter) receives the same diagnostic payload, looping indefinitely. -/
def keep_alive_on_crash (exitCode : Nat) (logLines : List String) : Nat → String :=
  fun _conn => crashResponse exitCode logLines

/-- Supervisor around the gateway invocation: the shell or-else operator runs
the fallback responder only when the gateway exits with a nonzero code;
`none` means the script simply proceeds to its end. -/
def gatewaySupervisor (gatewayExit : Nat) (logLines : List String) :
    Option (Nat → String) :=
  if gatewayExit = 0 then none else some (keep_alive_on_crash gatewayExit logLines)

/-!
Data model of the persisted service config (the subset the embedded
node updater reads and writes), part_000 lines 162-399.
-/

/-- One model catalog entry; `name` is the display name, absent in entries
written by older broken versions. -/
structure ModelEntry where
  id : String
  name : Option String := none
  contextWindow : Nat := 0
deriving DecidableEq, Repr

/-- One provider block under models.providers. -/
structure ProviderBlock where
  baseUrl : String
  api : String
  models : List ModelEntry
  apiKey : Option String := none
deriving DecidableEq, Repr

/-- channels.telegram subsection. -/
structure TelegramConfig where
  botToken : Option String := none
  enabled : Option Bool := none
  dmPolicy : Option String := none
  allowFrom : Option (List String) := none
deriving DecidableEq, Repr

/-- channels.discord subsection; the source nests policy and allowFrom under a
dm object, flattened here as dmPolicy and dmAllowFrom. -/
structure DiscordConfig where
  token : Option String := none
  enabled : Option Bool := none
  dmPolicy : Option String := none
  dmAllowFrom : Option (List String) := none
deriving DecidableEq, Repr

/-- channels.slack subsection. -/
structure SlackConfig where
  botToken : Option String := none
  appToken : Option String := none
  enabled : Option Bool := none
deriving DecidableEq, Repr

/-- The persisted service config: gateway section, channel sections, the three
provider blocks under models.providers, the model allowlist under
agents.defaults.models (an ordered key-to-alias map), and
agents.defaults.model.primary. -/
structure Config where
  gatewayPort : Option Nat := none
  gatewayMode : Option String := none
  trustedProxies : Option (List String) := none
  gatewayAuthToken : Option String := none
  allowInsecureAuth : Option Bool := none
  telegram : Option TelegramConfig := none
  discord : Option DiscordConfig := none
  slack : Option SlackConfig := none
  providersAnthropic : Option ProviderBlock := none
  providersOpenai : Option ProviderBlock := none
  providersGoogle : Option ProviderBlock := none
  modelAliases : List (String × Option String) := []
  primaryModel : Option String := none
deriving DecidableEq, Repr

/-- Environment variables read by the embedded node config updater. -/
structure ScriptEnv where
  CLAWDBOT_GATEWAY_TOKEN : Option String := none
  CLAWDBOT_DEV_MODE : Option String := none
  TELEGRAM_BOT_TOKEN : Option String := none
  TELEGRAM_DM_POLICY : Option String := none
  TELEGRAM_DM_ALLOW_FROM : Option String := none
  DISCORD_BOT_TOKEN : Option String := none
  DISCORD_DM_POLICY : Option String := none
  SLACK_BOT_TOKEN : Option String := none
  SLACK_APP_TOKEN : Option String := none
  AI_GATEWAY_BASE_URL : Option String := none
  ANTHROPIC_BASE_URL : Option String := none
  CF_AI_GATEWAY_MODEL : Option String := none
  OPENAI_API_KEY : Option String := none
  ANTHROPIC_API_KEY : Option String := none
deriving Repr

/-- JS object key assignment on an ordered key-value list: replace in place, or
append when the key is new. -/
def upsert : List (String × Option String) → String → Option String →
    List (String × Option String)
  | [], k, v => [(k, v)]
  | (k', v') :: rest, k, v =>
    if k' = k then (k, v) :: rest else (k', v') :: upsert rest k v

/-- Lookup in the ordered key-value list written by `upsert`. -/
def aliasLookup : List (String × Option String) → String → Option (Option String)
  | [], _ => none
  | (k', v) :: rest, k => if k' = k then some v else aliasLookup rest k

/-- Built-in Anthropic model catalog (part_000 lines 261-266). -/
def anthropicModels : List ModelEntry :=
  [{ id := "claude-sonnet-4-5-20250929", name := some "Claude Sonnet 4.5", contextWindow := 200000 },
   { id := "claude-haiku-4-5-20251001", name := some "Claude Haiku 4.5", contextWindow := 200000 },
   { id := "claude-3-5-sonnet-latest", name := some "Claude 3.5 Sonnet", contextWindow := 200000 },
   { id := "claude-3-opus-latest", name := some "Claude 3 Opus", contextWindow := 200000 }]

/-- Built-in OpenAI model catalog (part_000 lines 268-272). -/
def openaiModels : List ModelEntry :=
  [{ id := "gpt-5.2", name := some "GPT-5.2", contextWindow := 200000 },
   { id := "gpt-5", name := some "GPT-5", contextWindow := 200000 },
   { id := "gpt-4.5-preview", name := some "GPT-4.5 Preview", contextWindow := 128000 }]

/-- Built-in Google model catalog (part_000 lines 274-278). -/
def googleModels : List ModelEntry :=
  [{ id := "gemini-3-flash", name := some "Gemini 3 Flash", contextWindow := 1000000 },
   { id := "gemini-3-pro-preview", name := some "Gemini 3 Pro", contextWindow := 2000000 },
   { id := "gemini-2.0-flash", name := some "Gemini 2.0 Flash", contextWindow := 1000000 }]

/-- Normalized base URL of the node updater (part_000 line 256): the gateway
base URL, else the Anthropic base URL, else empty, with trailing slashes
stripped. -/
def effectiveBaseUrl (env : ScriptEnv) : String :=
  stripTrailingSlashes (strOfOpt (orTruthy env.AI_GATEWAY_BASE_URL env.ANTHROPIC_BASE_URL))

/-- Google classification of the node updater (part_000 line 257). -/
def isGoogleFlag (env : ScriptEnv) : Bool :=
  jsEndsWith (effectiveBaseUrl env) "/google" ||
    jsIncludes (effectiveBaseUrl env) "gemini" ||
    (truthy env.CF_AI_GATEWAY_MODEL &&
      jsStartsWith (strOfOpt env.CF_AI_GATEWAY_MODEL) "google/")

/-- OpenAI classification of the node updater (part_000 line 258). -/
def isOpenAIFlag (env : ScriptEnv) : Bool :=
  jsEndsWith (effectiveBaseUrl env) "/openai" ||
    (truthy env.CF_AI_GATEWAY_MODEL &&
      jsStartsWith (strOfOpt env.CF_AI_GATEWAY_MODEL) "openai/")

/-- True when some catalog entry lacks a truthy display name. -/
def hasInvalidModels (models : List ModelEntry) : Bool :=
  models.any (fun m => !(truthy m.name))

/-- Purge of a broken anthropic provider block from previous runs (part_000
lines 182-190): delete the block when any of its model entries lacks the
required name field.  Only the anthropic block is inspected. -/
def purgeBrokenAnthropic (c : Config) : Config :=
  match c.providersAnthropic with
  | some b =>
    if hasInvalidModels b.models then { c with providersAnthropic := none } else c
  | none => c

/-- Gateway section of the node updater (part_000 lines 194-209): pinned port,
local mode, trusted proxies; optional auth token and dev-mode insecure auth. -/
def applyGatewaySection (env : ScriptEnv) (c : Config) : Config :=
  let c := { c with gatewayPort := some 18789, gatewayMode := some "local", trustedProxies := some ["10.1.0.0"] }
  let c := if truthy env.CLAWDBOT_GATEWAY_TOKEN then
      { c with gatewayAuthToken := env.CLAWDBOT_GATEWAY_TOKEN } else c
  if env.CLAWDBOT_DEV_MODE = some "true" then
    { c with allowInsecureAuth := some true } else c

/-- Telegram section of the node updater (part_000 lines 211-225). -/
def applyTelegram (env : ScriptEnv) (c : Config) : Config :=
  if truthy env.TELEGRAM_BOT_TOKEN then
    let tg := c.telegram.getD {}
    let tg := { tg with botToken := env.TELEGRAM_BOT_TOKEN, enabled := some true }
    let policy := strOfOpt (orTruthy env.TELEGRAM_DM_POLICY (some "pairing"))
    let tg := { tg with dmPolicy := some policy }
    let tg :=
      if truthy env.TELEGRAM_DM_ALLOW_FROM then
        { tg with allowFrom := some (jsSplitChar (strOfOpt env.TELEGRAM_DM_ALLOW_FROM) ',') }
      else if policy = "open" then { tg with allowFrom := some ["*"] }
      else tg
    { c with telegram := some tg }
  else c

/-- Discord section of the node updater (part_000 lines 227-241). -/
def applyDiscord (env : ScriptEnv) (c : Config) : Config :=
  if truthy env.DISCORD_BOT_TOKEN then
    let dc := c.discord.getD {}
    let dc := { dc with token := env.DISCORD_BOT_TOKEN, enabled := some true }
    let policy := strOfOpt (orTruthy env.DISCORD_DM_POLICY (some "pairing"))
    let dc := { dc with dmPolicy := some policy }
    let dc := if policy = "open" then { dc with dmAllowFrom := some ["*"] } else dc
    { c with discord := some dc }
  else c

/-- Slack section of the node updater (part_000 lines 243-249). -/
def applySlack (env : ScriptEnv) (c : Config) : Config :=
  if truthy env.SLACK_BOT_TOKEN && truthy env.SLACK_APP_TOKEN then
    let sl := c.slack.getD {}
    let sl := { sl with botToken := env.SLACK_BOT_TOKEN, appToken := env.SLACK_APP_TOKEN, enabled := some true }
    { c with slack := some sl }
  else c

/-- Provider selection and write of the node updater (part_000 lines 251-393):
the Google branch (through the OpenAI-compatible surface when the URL ends in
the openai path segment, else the native google block), the OpenAI branch, and
the Anthropic default branch; each registers its catalog in the model
allowlist and resolves the primary model. -/
def applyProviderSection (env : ScriptEnv) (c : Config) : Config :=
  let baseUrl := effectiveBaseUrl env
  if isGoogleFlag env then
    if jsEndsWith baseUrl "/openai" then
      let block : ProviderBlock := { baseUrl := baseUrl, api := "openai-responses", models := googleModels }
      let al := googleModels.foldl (fun acc m => upsert (upsert acc ("google/" ++ m.id) m.name) ("openai/google/" ++ m.id) m.name) c.modelAliases
      let primary := if truthy env.CF_AI_GATEWAY_MODEL then strOfOpt env.CF_AI_GATEWAY_MODEL else "google/gemini-3-flash"
      { c with providersOpenai := some block, modelAliases := al, primaryModel := some primary }
    else
      let key := if truthy env.OPENAI_API_KEY then env.OPENAI_API_KEY else none
      let block : ProviderBlock := { baseUrl := jsOrDefault baseUrl "https://generativelanguage.googleapis.com", api := "google-generative-ai", models := googleModels, apiKey := key }
      let al := googleModels.foldl (fun acc m => upsert acc ("google/" ++ m.id) m.name) c.modelAliases
      let primary := if truthy env.CF_AI_GATEWAY_MODEL then strOfOpt env.CF_AI_GATEWAY_MODEL else "google/gemini-3-flash"
      { c with providersGoogle := some block, modelAliases := al, primaryModel := some primary }
  else if isOpenAIFlag env then
    let block : ProviderBlock := { baseUrl := baseUrl, api := "openai-responses", models := openaiModels }
    let al := openaiModels.foldl (fun acc m => upsert acc ("openai/" ++ m.id) m.name) c.modelAliases
    let primary := if truthy env.CF_AI_GATEWAY_MODEL then strOfOpt env.CF_AI_GATEWAY_MODEL else "openai/gpt-5.2"
    { c with providersOpenai := some block, modelAliases := al, primaryModel := some primary }
  else
    let key := if truthy env.ANTHROPIC_API_KEY then env.ANTHROPIC_API_KEY else none
    let block : ProviderBlock := { baseUrl := jsOrDefault baseUrl "https://api.anthropic.com", api := "anthropic-messages", models := anthropicModels, apiKey := key }
    let al := anthropicModels.foldl (fun acc m => upsert acc ("anthropic/" ++ m.id) m.name) c.modelAliases
    let primary := if truthy env.CF_AI_GATEWAY_MODEL then strOfOpt env.CF_AI_GATEWAY_MODEL else "anthropic/claude-sonnet-4-5-20250929"
    { c with providersAnthropic := some block, modelAliases := al, primaryModel := some primary }

/-- The whole node config updater (part_000 lines 162-399), in source order:
broken-anthropic purge, gateway section, channel sections, provider section. -/
def updateConfig (env : ScriptEnv) (c : Config) : Config :=
  applyProviderSection env
    (applySlack env (applyDiscord env (applyTelegram env
      (applyGatewaySection env (purgeBrokenAnthropic c)))))

/-- Number of populated provider blocks. -/
def populatedProviders (c : Config) : Nat :=
  (if c.providersAnthropic.isSome then 1 else 0) +
    (if c.providersOpenai.isSome then 1 else 0) +
    (if c.providersGoogle.isSome then 1 else 0)

/-- Concrete date parser for the decision-table examples: the two manifest
timestamps of the spec, anything else fails to parse. -/
def demoParse : String → Option Int :=
  fun t =>
    if t = "2024-01-02T00:00:00Z" then some 1704153600
    else if t = "2024-01-01T00:00:00Z" then some 1704067200
    else none

/-!
Worker-side gateway module, src/src/gateway/process.ts.
-/

/-- A sandbox process record as the platform lists it. -/
structure ProcRecord where
  id : Nat
  command : String
  status : String
deriving DecidableEq, Repr

/-- Gateway-signature test of discovery (process.ts lines 19-21). -/
def isGatewayProcess (cmd : String) : Bool :=
  jsIncludes cmd "start-moltbot.sh" || jsIncludes cmd "clawdbot gateway"

/-- CLI-only-invocation test of discovery (process.ts lines 22-24). -/
def isCliCommand (cmd : String) : Bool :=
  jsIncludes cmd "clawdbot devices" || jsIncludes cmd "clawdbot --version"

/-- Discovery filter loop of findExistingMoltbotProcesses (process.ts lines
13-34): keep a process iff its command matches the gateway signature and does
not match a CLI-only invocation. -/
def findExistingMoltbotProcesses : List ProcRecord → List ProcRecord
  | [] => []
  | p :: rest =>
    if isGatewayProcess p.command && !isCliCommand p.command then
      p :: findExistingMoltbotProcesses rest
    else findExistingMoltbotProcesses rest

/-- Observable event of the ensure orchestration: one kill attempt per
discovered record (with the outcome of that kill), then the launch. -/
inductive GatewayEvent where
  | killAttempt (id : Nat) (ok : Bool)
  | launch
deriving DecidableEq, Repr

/-- Cleanup loop of ensureMoltbotGateway (process.ts lines 65-77): each
discovered process gets a kill inside a try-catch whose handler only logs, so
a kill failure never propagates and the loop continues with the rest. -/
def cleanupExisting (kill : ProcRecord → Except String Unit) :
    List ProcRecord → Except String (List GatewayEvent)
  | [] => Except.ok []
  | p :: rest =>
    let step : Except String GatewayEvent :=
      match kill p with
      | Except.ok _ => Except.ok (GatewayEvent.killAttempt p.id true)
      | Except.error _e => Except.ok (GatewayEvent.killAttempt p.id false)
    match step with
    | Except.error e => Except.error e
    | Except.ok ev =>
      match cleanupExisting kill rest with
      | Except.ok evs => Except.ok (ev :: evs)
      | Except.error e => Except.error e

/-- Kill-then-launch sequence of ensureMoltbotGateway (process.ts lines
61-96): every discovered process is killed first, then the new gateway
process is started. -/
def ensureGatewayEvents (procs : List ProcRecord)
    (kill : ProcRecord → Except String Unit) : Except String (List GatewayEvent) :=
  match cleanupExisting kill procs with
  | Except.ok evs => Except.ok (evs ++ [GatewayEvent.launch])
  | Except.error e => Except.error e

/-- Captured process output. -/
structure Logs where
  stdout : String
  stderr : String
deriving DecidableEq, Repr

/-- An error value in the readiness section: either a raw platform error (the
wait error or a log-capture error) or the descriptive startup-failure error
constructed on line 113 of process.ts. -/
inductive JsError where
  | raw (msg : String)
  | descriptive (msg : String)
deriving DecidableEq, Repr

/-- Message of the descriptive startup failure (process.ts line 113): embeds
the captured stderr, or the empty marker when stderr is empty. -/
def descriptiveMessage (logs : Logs) : String :=
  "Moltbot gateway failed to start. Stderr: " ++
    (if logs.stderr.isEmpty then "(empty)" else logs.stderr)

/-- Readiness section of ensureMoltbotGateway (process.ts lines 99-118),
with the exact JS try-catch nesting.  The outer try awaits the port and then
fetches logs; its catch handler runs an inner try that fetches logs and
throws the freshly built descriptive error from inside that same inner try,
so the inner catch receives whatever the inner try threw (the log-capture
error or the descriptive error itself) and rethrows the original error. -/
def readinessGate (wait : Except String Unit) (getLogs : Except String Logs) :
    Except JsError Unit :=
  let outerBody : Except JsError Unit :=
    match wait with
    | Except.error e => Except.error (JsError.raw e)
    | Except.ok _ =>
      match getLogs with
      | Except.error le => Except.error (JsError.raw le)
      | Except.ok _ => Except.ok ()
  match outerBody with
  | Except.ok u => Except.ok u
  | Except.error e =>
    let innerBody : Except JsError Unit :=
      match getLogs with
      | Except.error le => Except.error (JsError.raw le)
      | Except.ok logs => Except.error (JsError.descriptive (descriptiveMessage logs))
    match innerBody with
    | Except.ok u => Except.ok u
    | Except.error _logErr => Except.error e

/-- Worker environment bindings consumed by process.ts. -/
structure MoltbotEnv where
  AI_GATEWAY_BASE_URL : Option String := none
  CLOUDFLARE_AI_GATEWAY_ID : Option String := none
  CF_ACCOUNT_ID : Option String := none
  CF_AI_GATEWAY_MODEL : Option String := none
  AI_GATEWAY_API_KEY : Option String := none
  CLOUDFLARE_AI_GATEWAY_API_KEY : Option String := none
  ANTHROPIC_API_KEY : Option String := none
  OPENAI_API_KEY : Option String := none
  ANTHROPIC_BASE_URL : Option String := none
  MOLTBOT_GATEWAY_TOKEN : Option String := none
  DEV_MODE : Option String := none
  E2E_TEST_MODE : Option String := none
  CLAWDBOT_BIND_MODE : Option String := none
  TELEGRAM_BOT_TOKEN : Option String := none
  TELEGRAM_DM_POLICY : Option String := none
  DISCORD_BOT_TOKEN : Option String := none
  DISCORD_DM_POLICY : Option String := none
  SLACK_BOT_TOKEN : Option String := none
  SLACK_APP_TOKEN : Option String := none
  CDP_SECRET : Option String := none
  WORKER_URL : Option String := none
  CF_ACCESS_TEAM_DOMAIN : Option String := none
  CF_ACCESS_AUD : Option String := none
deriving Repr

/-- Environment variables handed to the container process by buildEnvVars. -/
structure EnvVars where
  OPENAI_API_KEY : Option String := none
  ANTHROPIC_API_KEY : Option String := none
  AI_GATEWAY_BASE_URL : Option String := none
  OPENAI_BASE_URL : Option String := none
  ANTHROPIC_BASE_URL : Option String := none
  CLAWDBOT_GATEWAY_TOKEN : Option String := none
  CLAWDBOT_DEV_MODE : Option String := none
  CLAWDBOT_BIND_MODE : Option String := none
  TELEGRAM_BOT_TOKEN : Option String := none
  TELEGRAM_DM_POLICY : Option String := none
  DISCORD_BOT_TOKEN : Option String := none
  DISCORD_DM_POLICY : Option String := none
  SLACK_BOT_TOKEN : Option String := none
  SLACK_APP_TOKEN : Option String := none
  CDP_SECRET : Option String := none
  WORKER_URL : Option String := none
  CF_ACCOUNT_ID : Option String := none
  CF_AI_GATEWAY_MODEL : Option String := none
deriving DecidableEq, Repr

/-- Google hint on the configured model (process.ts line 149). -/
def modelHintsGoogle (m : Option String) : Bool :=
  match m with
  | some s => jsStartsWith s "google/" || jsIncludes s "gemini"
  | none => false

/-- Gateway URL synthesized from account and gateway ids (process.ts lines
148-155): the provider path segment is openai when the model hints Google,
else anthropic. -/
def constructedGatewayUrl (env : MoltbotEnv) : String :=
  let provider := if modelHintsGoogle env.CF_AI_GATEWAY_MODEL then "openai" else "anthropic"
  "https://gateway.ai.cloudflare.com/v1/" ++ strOfOpt env.CF_ACCOUNT_ID ++ "/" ++
    strOfOpt env.CLOUDFLARE_AI_GATEWAY_ID ++ "/" ++ provider

/-- Base URL before normalization (process.ts lines 138-156): explicit
gateway base URL, else the synthesized one when both ids are present. -/
def resolvedBaseUrl (env : MoltbotEnv) : Option String :=
  if !(truthy env.AI_GATEWAY_BASE_URL) && truthy env.CLOUDFLARE_AI_GATEWAY_ID &&
      truthy env.CF_ACCOUNT_ID then
    some (constructedGatewayUrl env)
  else env.AI_GATEWAY_BASE_URL

/-- Normalized base URL (process.ts line 158). -/
def normalizedBaseUrl (env : MoltbotEnv) : Option String :=
  (resolvedBaseUrl env).map stripTrailingSlashes

/-- OpenAI-shaped classification (process.ts line 159). -/
def isOpenAIGateway (env : MoltbotEnv) : Bool :=
  match normalizedBaseUrl env with
  | some u => jsEndsWith u "/openai"
  | none => false

/-- Gateway-scoped API key (process.ts line 165). -/
def gatewayApiKey (env : MoltbotEnv) : Option String :=
  orTruthy env.AI_GATEWAY_API_KEY env.CLOUDFLARE_AI_GATEWAY_API_KEY

/-- API-key resolution of buildEnvVars (process.ts lines 165-181): the
gateway-scoped key is routed by the OpenAI-shaped classification; direct
provider keys only fill a still-unset variable. -/
def apiKeyPhase (env : MoltbotEnv) (ev : EnvVars) : EnvVars :=
  let apiKey := gatewayApiKey env
  let ev :=
    if truthy apiKey then
      if isOpenAIGateway env then { ev with OPENAI_API_KEY := apiKey }
      else { ev with ANTHROPIC_API_KEY := apiKey }
    else ev
  let ev :=
    if !(truthy ev.ANTHROPIC_API_KEY) && truthy env.ANTHROPIC_API_KEY then
      { ev with ANTHROPIC_API_KEY := env.ANTHROPIC_API_KEY }
    else ev
  if !(truthy ev.OPENAI_API_KEY) && truthy env.OPENAI_API_KEY then
    { ev with OPENAI_API_KEY := env.OPENAI_API_KEY }
  else ev

/-- Base-URL propagation of buildEnvVars (process.ts lines 184-194). -/
def baseUrlPhase (env : MoltbotEnv) (ev : EnvVars) : EnvVars :=
  if truthy (normalizedBaseUrl env) then
    let ev := { ev with AI_GATEWAY_BASE_URL := normalizedBaseUrl env }
    if isOpenAIGateway env then { ev with OPENAI_BASE_URL := normalizedBaseUrl env }
    else { ev with ANTHROPIC_BASE_URL := normalizedBaseUrl env }
  else if truthy env.ANTHROPIC_BASE_URL then
    { ev with ANTHROPIC_BASE_URL := env.ANTHROPIC_BASE_URL }
  else ev

/-- Pass-through section of buildEnvVars (process.ts lines 196-209); the
source repeats the WORKER_URL line, which is idempotent. -/
def passthroughPhase (env : MoltbotEnv) (ev : EnvVars) : EnvVars :=
  let ev := if truthy env.MOLTBOT_GATEWAY_TOKEN then { ev with CLAWDBOT_GATEWAY_TOKEN := env.MOLTBOT_GATEWAY_TOKEN } else ev
  let ev := if truthy env.DEV_MODE then { ev with CLAWDBOT_DEV_MODE := env.DEV_MODE } else ev
  let ev := if truthy env.CLAWDBOT_BIND_MODE then { ev with CLAWDBOT_BIND_MODE := env.CLAWDBOT_BIND_MODE } else ev
  let ev := if truthy env.TELEGRAM_BOT_TOKEN then { ev with TELEGRAM_BOT_TOKEN := env.TELEGRAM_BOT_TOKEN } else ev
  let ev := if truthy env.TELEGRAM_DM_POLICY then { ev with TELEGRAM_DM_POLICY := env.TELEGRAM_DM_POLICY } else ev
  let ev := if truthy env.DISCORD_BOT_TOKEN then { ev with DISCORD_BOT_TOKEN := env.DISCORD_BOT_TOKEN } else ev
  let ev := if truthy env.DISCORD_DM_POLICY then { ev with DISCORD_DM_POLICY := env.DISCORD_DM_POLICY } else ev
  let ev := if truthy env.SLACK_BOT_TOKEN then { ev with SLACK_BOT_TOKEN := env.SLACK_BOT_TOKEN } else ev
  let ev := if truthy env.SLACK_APP_TOKEN then { ev with SLACK_APP_TOKEN := env.SLACK_APP_TOKEN } else ev
  let ev := if truthy env.CDP_SECRET then { ev with CDP_SECRET := env.CDP_SECRET } else ev
  let ev := if truthy env.WORKER_URL then { ev with WORKER_URL := env.WORKER_URL } else ev
  let ev := if truthy env.CF_ACCOUNT_ID then { ev with CF_ACCOUNT_ID := env.CF_ACCOUNT_ID } else ev
  if truthy env.CF_AI_GATEWAY_MODEL then { ev with CF_AI_GATEWAY_MODEL := env.CF_AI_GATEWAY_MODEL } else ev

/-- buildEnvVars (process.ts lines 133-212). -/
def buildEnvVars (env : MoltbotEnv) : EnvVars :=
  passthroughPhase env (baseUrlPhase env (apiKeyPhase env {}))

/-!
Access middleware, from the third section of the gateway module.
-/

/-- Relevant parts of an incoming request: the JWT assertion header, the raw
cookie header, and the token query parameter. -/
structure AccessRequest where
  jwtHeader : Option String := none
  cookieHeader : Option String := none
  queryToken : Option String := none
deriving DecidableEq, Repr

/-- Outcome of the middleware: grant (next is invoked with this user), deny
with an HTTP status, or redirect to the team login. -/
inductive AccessOutcome where
  | grant (email name : String)
  | deny (status : Nat)
  | redirect (url : String)
deriving DecidableEq, Repr

/-- Credential checks the middleware can perform. -/
inductive AuthCheck where
  | tokenCompare
  | jwtVerify
deriving DecidableEq, Repr

/-- Dev-mode test (process.ts middleware section): DEV_MODE strictly equals
the string true. -/
def isDevMode (env : MoltbotEnv) : Bool :=
  env.DEV_MODE == some "true"

/-- E2E-test-mode test: E2E_TEST_MODE strictly equals the string true. -/
def isE2ETestMode (env : MoltbotEnv) : Bool :=
  env.E2E_TEST_MODE == some "true"

/-- Cookie-token extraction in the middleware: split the cookie header on
semicolons, trim each part, find the one starting with the moltbot-token
key, take the piece after the first equals sign. -/
def moltbotCookieToken (cookieHeader : Option String) : Option String :=
  match cookieHeader with
  | none => none
  | some h =>
    (((jsSplitChar h ';').map (fun c => jsTrim c)).find?
        (fun c => jsStartsWith c "moltbot-token=")).bind
      (fun c => (jsSplitChar c '=').get? 1)

/-- extractJWT: the assertion header, else the CF_Authorization cookie value
(the cookie parts are trimmed only for the match, and the untrimmed part is
split on equals signs, exactly as the source does). -/
def extractJWT (req : AccessRequest) : Option String :=
  let jwtCookie : Option String :=
    match req.cookieHeader with
    | none => none
    | some h =>
      ((jsSplitChar h ';').find? (fun c => jsStartsWith (jsTrim c) "CF_Authorization=")).bind
        (fun c => (jsSplitChar c '=').get? 1)
  orTruthy req.jwtHeader (orTruthy jwtCookie none)

/-- Middleware tail after the dev-mode bypass: gateway-token comparison when a
token is configured, then the CF Access configuration check, JWT extraction,
and JWT verification (abstracted as a function from the JWT to the verified
email-name payload, none on verification failure).  The performed credential
checks are returned alongside the outcome. -/
def nonBypassAccess (typ : String) (redirectOnMissing : Bool)
    (verify : String → Option (String × String))
    (env : MoltbotEnv) (req : AccessRequest) : AccessOutcome × List AuthCheck :=
  let afterToken : List AuthCheck → AccessOutcome × List AuthCheck := fun checks =>
    if !(truthy env.CF_ACCESS_TEAM_DOMAIN) || !(truthy env.CF_ACCESS_AUD) then
      if truthy env.MOLTBOT_GATEWAY_TOKEN then (AccessOutcome.deny 401, checks)
      else (AccessOutcome.deny 500, checks)
    else
      match extractJWT req with
      | none =>
        if typ = "html" ∧ redirectOnMissing = true then
          (AccessOutcome.redirect ("https://" ++ strOfOpt env.CF_ACCESS_TEAM_DOMAIN), checks)
        else (AccessOutcome.deny 401, checks)
      | some jwt =>
        match verify jwt with
        | some en => (AccessOutcome.grant en.1 en.2, checks ++ [AuthCheck.jwtVerify])
        | none => (AccessOutcome.deny 401, checks ++ [AuthCheck.jwtVerify])
  if truthy env.MOLTBOT_GATEWAY_TOKEN then
    if req.queryToken = env.MOLTBOT_GATEWAY_TOKEN ∨
        moltbotCookieToken req.cookieHeader = env.MOLTBOT_GATEWAY_TOKEN then
      (AccessOutcome.grant "admin@token" "Token Admin", [AuthCheck.tokenCompare])
    else afterToken [AuthCheck.tokenCompare]
  else afterToken []

/-- createAccessMiddleware (process.ts middleware section): dev mode or E2E
test mode bypasses every credential check and grants the fixed dev identity;
otherwise the token and JWT path runs. -/
def createAccessMiddleware (typ : String) (redirectOnMissing : Bool)
    (verify : String → Option (String × String))
    (env : MoltbotEnv) (req : AccessRequest) : AccessOutcome × List AuthCheck :=
  if isDevMode env || isE2ETestMode env then
    (AccessOutcome.grant "dev@localhost" "Dev User", [])
  else nonBypassAccess typ redirectOnMissing verify env req

/-!
Named provider blocks used in theorem statements, matching the blocks the
provider section writes.
-/

/-- The openai provider block carrying the Google catalog (Google classified
through the OpenAI-compatible surface). -/
def googleViaOpenaiBlock (base : String) : ProviderBlock :=
  { baseUrl := base, api := "openai-responses", models := googleModels }

/-- The native openai provider block. -/
def openaiBlockFor (base : String) : ProviderBlock :=
  { baseUrl := base, api := "openai-responses", models := openaiModels }

/-- The anthropic provider block at the default endpoint. -/
def anthropicBlockFor (key : Option String) : ProviderBlock :=
  { baseUrl := "https://api.anthropic.com", api := "anthropic-messages", models := anthropicModels, apiKey := key }

/-- A persisted openai provider block whose model entry lacks the required
display name, as older broken versions wrote. -/
def staleInvalidOpenai : ProviderBlock :=
  { baseUrl := "https://gw.example/openai", api := "openai-responses", models := [{ id := "gpt-5" }] }

/-- A persisted anthropic provider block whose model entry lacks the required
display name. -/
def staleInvalidAnthropic : ProviderBlock :=
  { baseUrl := "https://api.anthropic.com", api := "anthropic-messages", models := [{ id := "claude-3-opus" }] }

/-- A persisted, structurally valid openai provider block from a prior run. -/
def staleValidOpenai : ProviderBlock :=
  { baseUrl := "https://gw.example/openai", api := "openai-responses", models := openaiModels }

/-!
Helper lemmas.
-/

theorem isPrefixOf_append_self (l t : List Char) : l.isPrefixOf (l ++ t) = true :=
  Iff.mpr List.isPrefixOf_iff_prefix ⟨t, rfl⟩

theorem listContains_nil_sub (l : List Char) : listContains [] l = true := by
  cases l <;> simp [listContains, List.isPrefixOf]

theorem listContains_append (pre mid post : List Char) :
    listContains mid (pre ++ (mid ++ post)) = true := by
  induction pre with
  | nil =>
    rw [List.nil_append]
    cases mid with
    | nil => simpa using listContains_nil_sub post
    | cons m ms =>
      rw [List.cons_append]
      simp only [listContains]
      have h := isPrefixOf_append_self (m :: ms) post
      rw [List.cons_append] at h
      rw [h]
      simp
  | cons a t ih =>
    rw [List.cons_append]
    simp only [listContains]
    rw [ih]
    simp

theorem listContains_append_right (pre mid : List Char) :
    listContains mid (pre ++ mid) = true := by
  simpa using listContains_append pre mid []

theorem endsWith_openai_not_google (s : String)
    (h : jsEndsWith s "/openai" = true) : jsEndsWith s "/google" = false := by
  unfold jsEndsWith at h ⊢
  have e1 : ("/openai".toList.reverse) = ['i', 'a', 'n', 'e', 'p', 'o', '/'] := rfl
  have e2 : ("/google".toList.reverse) = ['e', 'l', 'g', 'o', 'o', 'g', '/'] := rfl
  rw [e1] at h
  rw [e2]
  cases hl : s.toList.reverse with
  | nil => rw [hl] at h; exact absurd h (by decide)
  | cons a t =>
    rw [hl] at h
    simp only [List.isPrefixOf, Bool.and_eq_true, beq_iff_eq] at h
    obtain ⟨ha, _⟩ := h
    subst ha
    simp [List.isPrefixOf]

theorem aliasLookup_upsert (al : List (String × Option String)) (k k' : String)
    (v : Option String) :
    aliasLookup (upsert al k' v) k = if k' = k then some v else aliasLookup al k := by
  induction al with
  | nil => by_cases hk : k' = k <;> simp [upsert, aliasLookup, hk]
  | cons kv rest ih =>
    obtain ⟨k0, v0⟩ := kv
    by_cases h0 : k0 = k'
    · subst h0
      by_cases hk : k0 = k <;> simp [upsert, aliasLookup, hk]
    · by_cases hk0 : k0 = k
      · subst hk0
        have hk : ¬(k' = k0) := fun he => h0 he.symm
        simp [upsert, aliasLookup, h0, hk, ih]
      · by_cases hk : k' = k
        · simp only [upsert, aliasLookup, if_neg h0, if_neg hk0, ih, if_pos hk]
        · simp only [upsert, aliasLookup, if_neg h0, if_neg hk0, ih, if_neg hk]

theorem purge_of_anthropic_none (c : Config) (h : c.providersAnthropic = none) :
    purgeBrokenAnthropic c = c := by
  unfold purgeBrokenAnthropic
  rw [h]

theorem applyGatewaySection_providers (env : ScriptEnv) (c : Config) :
    (applyGatewaySection env c).providersAnthropic = c.providersAnthropic ∧
    (applyGatewaySection env c).providersOpenai = c.providersOpenai ∧
    (applyGatewaySection env c).providersGoogle = c.providersGoogle := by
  unfold applyGatewaySection
  refine ⟨?_, ?_, ?_⟩ <;> (split <;> split <;> rfl)

theorem applyTelegram_providers (env : ScriptEnv) (c : Config) :
    (applyTelegram env c).providersAnthropic = c.providersAnthropic ∧
    (applyTelegram env c).providersOpenai = c.providersOpenai ∧
    (applyTelegram env c).providersGoogle = c.providersGoogle := by
  unfold applyTelegram
  refine ⟨?_, ?_, ?_⟩ <;> (split <;> rfl)

theorem applyDiscord_providers (env : ScriptEnv) (c : Config) :
    (applyDiscord env c).providersAnthropic = c.providersAnthropic ∧
    (applyDiscord env c).providersOpenai = c.providersOpenai ∧
    (applyDiscord env c).providersGoogle = c.providersGoogle := by
  unfold applyDiscord
  refine ⟨?_, ?_, ?_⟩ <;> (split <;> rfl)

theorem applySlack_providers (env : ScriptEnv) (c : Config) :
    (applySlack env c).providersAnthropic = c.providersAnthropic ∧
    (applySlack env c).providersOpenai = c.providersOpenai ∧
    (applySlack env c).providersGoogle = c.providersGoogle := by
  unfold applySlack
  refine ⟨?_, ?_, ?_⟩ <;> (split <;> rfl)

theorem passthrough_keys (env : MoltbotEnv) (ev : EnvVars) :
    (passthroughPhase env ev).OPENAI_API_KEY = ev.OPENAI_API_KEY ∧
    (passthroughPhase env ev).ANTHROPIC_API_KEY = ev.ANTHROPIC_API_KEY := by
  unfold passthroughPhase
  constructor <;>
    simp only [apply_ite (f := EnvVars.OPENAI_API_KEY),
      apply_ite (f := EnvVars.ANTHROPIC_API_KEY), ite_self]

theorem baseUrl_keys (env : MoltbotEnv) (ev : EnvVars) :
    (baseUrlPhase env ev).OPENAI_API_KEY = ev.OPENAI_API_KEY ∧
    (baseUrlPhase env ev).ANTHROPIC_API_KEY = ev.ANTHROPIC_API_KEY := by
  unfold baseUrlPhase
  constructor <;>
    simp only [apply_ite (f := EnvVars.OPENAI_API_KEY),
      apply_ite (f := EnvVars.ANTHROPIC_API_KEY), ite_self]

theorem findExisting_eq_filter (procs : List ProcRecord) :
    findExistingMoltbotProcesses procs =
      procs.filter (fun p => isGatewayProcess p.command && !isCliCommand p.command) := by
  induction procs with
  | nil => rfl
  | cons q rest ih =>
    unfold findExistingMoltbotProcesses
    rw [List.filter_cons]
    split <;> simp_all

/-!
Claim theorems.
-/

/-- C2: the backup-restore decision returns false when no remote manifest
exists; returns true when a remote manifest exists but no local one does;
otherwise treats any unparsable timestamp as epoch zero without aborting and
returns true iff the remote epoch is strictly greater than the local epoch
(so equal timestamps yield false). -/
theorem C2_restore_decision (dateParse : String → Option Int)
    (remoteSync localSync : Option String) :
    (remoteSync = none → should_restore_from_r2 dateParse remoteSync localSync = false) ∧
    (∀ rt, remoteSync = some rt → localSync = none →
      should_restore_from_r2 dateParse remoteSync localSync = true) ∧
    (∀ rt lt, remoteSync = some rt → localSync = some lt →
      (should_restore_from_r2 dateParse remoteSync localSync = true ↔
        epochOrZero dateParse rt > epochOrZero dateParse lt)) ∧
    (∀ rt lt, remoteSync = some rt → localSync = some lt →
      epochOrZero dateParse rt = epochOrZero dateParse lt →
      should_restore_from_r2 dateParse remoteSync localSync = false) ∧
    (∀ t, dateParse t = none → epochOrZero dateParse t = 0) := by
  refine ⟨?_, ?_, ?_, ?_, ?_⟩
  · intro h; subst h; rfl
  · intro rt hr hl; subst hr; subst hl; rfl
  · intro rt lt hr hl; subst hr; subst hl
    simp [should_restore_from_r2]
  · intro rt lt hr hl he; subst hr; subst hl
    simp [should_restore_from_r2, he]
  · intro t h; simp [epochOrZero, h]

/-- C2 witness: the decision table of the spec at concrete manifests, with a
parse function giving the documented epochs and failing on anything else. -/
theorem C2_restore_decision_witness :
    should_restore_from_r2 demoParse none (some "2024-01-01T00:00:00Z") = false ∧
    should_restore_from_r2 demoParse (some "2024-01-02T00:00:00Z") none = true ∧
    should_restore_from_r2 demoParse (some "2024-01-02T00:00:00Z")
      (some "2024-01-01T00:00:00Z") = true ∧
    should_restore_from_r2 demoParse (some "2024-01-01T00:00:00Z")
      (some "2024-01-01T00:00:00Z") = false ∧
    epochOrZero demoParse "not-a-date" = 0 := by
  refine ⟨?_, ?_, ?_, ?_, ?_⟩
  · exact (C2_restore_decision demoParse none (some "2024-01-01T00:00:00Z")).1 rfl
  · exact (C2_restore_decision demoParse _ none).2.1 "2024-01-02T00:00:00Z" rfl rfl
  · exact ((C2_restore_decision demoParse _ _).2.2.1 _ _ rfl rfl).mpr (by decide)
  · exact (C2_restore_decision demoParse _ _).2.2.2.1 _ _ rfl rfl (by decide)
  · exact (C2_restore_decision demoParse none none).2.2.2.2 "not-a-date" (by decide)

/-- C3: contrary to the claim, when the readiness wait fails the raised error
is always the original wait error, even when log capture succeeds — the
descriptive startup error is built and then discarded, because its throw sits
inside the same try block whose catch rethrows the original error.  The
second conjunct shows the descriptive message the claim expects does exist in
the code; the third shows the log-capture-failure path also raises the
original error. -/
theorem C3_wait_error_not_enriched :
    readinessGate (Except.error "timeout") (Except.ok { stdout := "", stderr := "boom" }) =
      Except.error (JsError.raw "timeout") ∧
    descriptiveMessage { stdout := "", stderr := "boom" } =
      "Moltbot gateway failed to start. Stderr: boom" ∧
    readinessGate (Except.error "timeout") (Except.error "logs failed") =
      Except.error (JsError.raw "timeout") := ⟨rfl, rfl, rfl⟩

/-- C4: the ensure orchestration issues a kill to every discovered process
record — whatever its status, including starting — before the launch event,
and an individual kill failure only flips that attempt's outcome flag: the
run never aborts, the remaining kills still happen, and the launch follows. -/
theorem C4_kill_all_before_launch (procs : List ProcRecord)
    (kill : ProcRecord → Except String Unit) :
    ensureGatewayEvents procs kill =
      Except.ok ((procs.map (fun p => GatewayEvent.killAttempt p.id
        (match kill p with | Except.ok _ => true | Except.error _ => false))) ++
        [GatewayEvent.launch]) := by
  unfold ensureGatewayEvents
  have h : cleanupExisting kill procs = Except.ok (procs.map (fun p =>
      GatewayEvent.killAttempt p.id
        (match kill p with | Except.ok _ => true | Except.error _ => false))) := by
    induction procs with
    | nil => rfl
    | cons p rest ih =>
      unfold cleanupExisting
      cases hk : kill p <;> simp [hk, ih]
  rw [h]

/-- C7 counterexample: with exit code 0 the supervisor does not enter the
degraded state at all — the shell or-else operator skips the fallback — so
the claim fails for exit code 0. -/
theorem C7_zero_exit_no_fallback :
    gatewaySupervisor 0 ["some log line"] = none := rfl

/-- C7 (amended): for every nonzero exit code the supervisor enters the
degraded state; every connection receives the same fixed diagnostic payload,
which contains the exit code and the 50-line log tail. -/
theorem C7_nonzero_exit_degraded (ec : Nat) (logLines : List String) (h : ec ≠ 0) :
    gatewaySupervisor ec logLines = some (keep_alive_on_crash ec logLines) ∧
    (∀ conn : Nat, keep_alive_on_crash ec logLines conn = crashResponse ec logLines) ∧
    jsIncludes (crashResponse ec logLines) ("Exit code: " ++ toString ec) = true ∧
    jsIncludes (crashResponse ec logLines)
      (String.join ((tail50 logLines).map (fun line => line ++ "\n"))) = true := by
  refine ⟨?_, fun _ => rfl, ?_, ?_⟩
  · unfold gatewaySupervisor
    rw [if_neg h]
  · show listContains ("Exit code: " ++ toString ec).toList
      (crashResponse ec logLines).toList = true
    have hd : (crashResponse ec logLines).toList =
        ("HTTP/1.1 200 OK\r\nContent-Type: text/plain; charset=utf-8\r\n\r\nCRASH DETECTED (").toList ++
          (("Exit code: " ++ toString ec).toList ++
            ((")\n\n--- LAST 50 LINES OF LOG ---\n\n").toList ++
              (String.join ((tail50 logLines).map (fun line => line ++ "\n"))).toList)) := by
      simp [crashResponse, String.toList]
    rw [hd]
    exact listContains_append _ _ _
  · show listContains (String.join ((tail50 logLines).map (fun line => line ++ "\n"))).toList
      (crashResponse ec logLines).toList = true
    have hd : (crashResponse ec logLines).toList =
        ("HTTP/1.1 200 OK\r\nContent-Type: text/plain; charset=utf-8\r\n\r\nCRASH DETECTED (" ++
            (("Exit code: " ++ toString ec) ++ ")\n\n--- LAST 50 LINES OF LOG ---\n\n")).toList ++
          (String.join ((tail50 logLines).map (fun line => line ++ "\n"))).toList := by
      simp [crashResponse, String.toList]
    rw [hd]
    exact listContains_append_right _ _

/-- C7 amended witness: the degraded responder at the concrete exit code 137
with a two-line log. -/
theorem C7_nonzero_exit_degraded_witness :
    gatewaySupervisor 137 ["line one", "line two"] =
      some (keep_alive_on_crash 137 ["line one", "line two"]) ∧
    keep_alive_on_crash 137 ["line one", "line two"] 0 =
      crashResponse 137 ["line one", "line two"] := by
  have h := C7_nonzero_exit_degraded 137 ["line one", "line two"] (by decide)
  exact ⟨h.1, h.2.1 0⟩

/-- C9: discovery returns exactly the processes whose command matches the
launch-script or gateway-CLI signature, and never one whose command matches a
CLI-only invocation (device listing or version query). -/
theorem C9_discovery_filter (procs : List ProcRecord) (p : ProcRecord) :
    (p ∈ findExistingMoltbotProcesses procs ↔
      p ∈ procs ∧ (isGatewayProcess p.command && !isCliCommand p.command) = true) ∧
    (isCliCommand p.command = true → p ∉ findExistingMoltbotProcesses procs) := by
  have hf := findExisting_eq_filter procs
  constructor
  · rw [hf, List.mem_filter]
  · intro hcli hmem
    rw [hf, List.mem_filter] at hmem
    simp [hcli] at hmem

/-- C9 witness: a device-listing invocation sharing the clawdbot binary name
is excluded while the launch-script process is returned. -/
theorem C9_discovery_filter_witness :
    (⟨2, "clawdbot devices", "running"⟩ : ProcRecord) ∉
        findExistingMoltbotProcesses
          [⟨1, "bash /usr/local/bin/start-moltbot.sh", "running"⟩,
           ⟨2, "clawdbot devices", "running"⟩] ∧
    (⟨1, "bash /usr/local/bin/start-moltbot.sh", "running"⟩ : ProcRecord) ∈
        findExistingMoltbotProcesses
          [⟨1, "bash /usr/local/bin/start-moltbot.sh", "running"⟩,
           ⟨2, "clawdbot devices", "running"⟩] := by
  constructor
  · exact (C9_discovery_filter _ _).2 (by decide)
  · exact (C9_discovery_filter _ _).1.mpr ⟨by decide, by decide⟩

/-- C5: the environment reconciler prefers the gateway-scoped key and routes
it to OPENAI_API_KEY when the normalized base URL is OpenAI-shaped, else to
ANTHROPIC_API_KEY; when the gateway-scoped key is absent the direct provider
keys fill the variables; and the direct-key fallback only ever fills a slot
the gateway-scoped key did not already resolve. -/
theorem C5_api_key_resolution (env : MoltbotEnv) :
    (truthy (gatewayApiKey env) = true → isOpenAIGateway env = true →
      (buildEnvVars env).OPENAI_API_KEY = gatewayApiKey env ∧
      (buildEnvVars env).ANTHROPIC_API_KEY =
        (if truthy env.ANTHROPIC_API_KEY then env.ANTHROPIC_API_KEY else none)) ∧
    (truthy (gatewayApiKey env) = true → isOpenAIGateway env = false →
      (buildEnvVars env).ANTHROPIC_API_KEY = gatewayApiKey env ∧
      (buildEnvVars env).OPENAI_API_KEY =
        (if truthy env.OPENAI_API_KEY then env.OPENAI_API_KEY else none)) ∧
    (truthy (gatewayApiKey env) = false →
      (buildEnvVars env).ANTHROPIC_API_KEY =
        (if truthy env.ANTHROPIC_API_KEY then env.ANTHROPIC_API_KEY else none) ∧
      (buildEnvVars env).OPENAI_API_KEY =
        (if truthy env.OPENAI_API_KEY then env.OPENAI_API_KEY else none)) := by
  have ho : (buildEnvVars env).OPENAI_API_KEY = (apiKeyPhase env {}).OPENAI_API_KEY := by
    unfold buildEnvVars
    rw [(passthrough_keys env _).1, (baseUrl_keys env _).1]
  have ha : (buildEnvVars env).ANTHROPIC_API_KEY = (apiKeyPhase env {}).ANTHROPIC_API_KEY := by
    unfold buildEnvVars
    rw [(passthrough_keys env _).2, (baseUrl_keys env _).2]
  have tn : truthy none = false := rfl
  refine ⟨?_, ?_, ?_⟩
  · intro hk hOpen
    rw [ho, ha]
    unfold apiKeyPhase
    constructor <;>
      simp [hk, hOpen, tn, apply_ite (f := EnvVars.OPENAI_API_KEY),
        apply_ite (f := EnvVars.ANTHROPIC_API_KEY)]
  · intro hk hOpen
    rw [ho, ha]
    unfold apiKeyPhase
    constructor <;>
      simp [hk, hOpen, tn, apply_ite (f := EnvVars.OPENAI_API_KEY),
        apply_ite (f := EnvVars.ANTHROPIC_API_KEY)]
  · intro hk
    rw [ho, ha]
    unfold apiKeyPhase
    constructor <;>
      simp [hk, tn, apply_ite (f := EnvVars.OPENAI_API_KEY),
        apply_ite (f := EnvVars.ANTHROPIC_API_KEY)]

/-- C5 witness: a gateway-scoped key with an OpenAI-shaped URL lands in
OPENAI_API_KEY while the direct anthropic key fills the other slot; without a
gateway-scoped key the direct keys are used. -/
theorem C5_api_key_resolution_witness :
    (buildEnvVars { AI_GATEWAY_API_KEY := some "gwk", AI_GATEWAY_BASE_URL := some "https://gw.example/openai", ANTHROPIC_API_KEY := some "ak" }).OPENAI_API_KEY = some "gwk" ∧
    (buildEnvVars { AI_GATEWAY_API_KEY := some "gwk", AI_GATEWAY_BASE_URL := some "https://gw.example/openai", ANTHROPIC_API_KEY := some "ak" }).ANTHROPIC_API_KEY = some "ak" ∧
    (buildEnvVars { ANTHROPIC_API_KEY := some "ak" }).ANTHROPIC_API_KEY = some "ak" := by
  have h1 := (C5_api_key_resolution { AI_GATEWAY_API_KEY := some "gwk", AI_GATEWAY_BASE_URL := some "https://gw.example/openai", ANTHROPIC_API_KEY := some "ak" }).1 (by decide) (by decide)
  have h2 := (C5_api_key_resolution { ANTHROPIC_API_KEY := some "ak" }).2.2 (by decide)
  refine ⟨?_, ?_, ?_⟩
  · exact h1.1.trans (by decide)
  · exact h1.2.trans (by decide)
  · exact h2.1.trans (by decide)

/-- C10: with DEV_MODE or E2E_TEST_MODE strictly equal to the string true the
middleware grants the fixed dev identity with no credential check performed
(empty check trace, outcome independent of tokens, JWT and verifier); for any
other value the bypass does not apply and the token-and-JWT path runs. -/
theorem C10_dev_bypass (env : MoltbotEnv) (req : AccessRequest) (typ : String)
    (rdm : Bool) (verify : String → Option (String × String)) :
    ((env.DEV_MODE = some "true" ∨ env.E2E_TEST_MODE = some "true") →
      createAccessMiddleware typ rdm verify env req =
        (AccessOutcome.grant "dev@localhost" "Dev User", [])) ∧
    (env.DEV_MODE ≠ some "true" → env.E2E_TEST_MODE ≠ some "true" →
      createAccessMiddleware typ rdm verify env req =
        nonBypassAccess typ rdm verify env req) := by
  constructor
  · intro h
    have hb : (isDevMode env || isE2ETestMode env) = true := by
      rcases h with h | h <;> simp [isDevMode, isE2ETestMode, h]
    unfold createAccessMiddleware
    simp [hb]
  · intro h1 h2
    have hb : (isDevMode env || isE2ETestMode env) = false := by
      simp [isDevMode, isE2ETestMode, h1, h2]
    unfold createAccessMiddleware
    simp [hb]

/-- C10 witness: DEV_MODE set to true grants the dev identity with an empty
check trace; DEV_MODE set to TRUE and E2E_TEST_MODE set to 1 do not bypass. -/
theorem C10_dev_bypass_witness :
    createAccessMiddleware "json" false (fun _ => none)
        { DEV_MODE := some "true" } {} =
      (AccessOutcome.grant "dev@localhost" "Dev User", []) ∧
    createAccessMiddleware "json" false (fun _ => none)
        { DEV_MODE := some "TRUE", E2E_TEST_MODE := some "1" } {} =
      nonBypassAccess "json" false (fun _ => none)
        { DEV_MODE := some "TRUE", E2E_TEST_MODE := some "1" } {} := by
  constructor
  · exact (C10_dev_bypass _ _ _ _ _).1 (Or.inl rfl)
  · exact (C10_dev_bypass _ _ _ _ _).2 (by decide) (by decide)

theorem googleDoubleAliases_lookup (al : List (String × Option String)) (m : ModelEntry)
    (hm : m ∈ googleModels) :
    aliasLookup (googleModels.foldl (fun acc x =>
        upsert (upsert acc ("google/" ++ x.id) x.name) ("openai/google/" ++ x.id) x.name) al)
      ("google/" ++ m.id) = some m.name ∧
    aliasLookup (googleModels.foldl (fun acc x =>
        upsert (upsert acc ("google/" ++ x.id) x.name) ("openai/google/" ++ x.id) x.name) al)
      ("openai/google/" ++ m.id) = some m.name := by
  simp only [googleModels, List.mem_cons, List.not_mem_nil, or_false] at hm
  rcases hm with h | h | h <;> subst h <;>
    constructor <;> simp [googleModels, List.foldl, aliasLookup_upsert]

/-- C1: classification of the config synthesizer.  A base URL ending in the
openai path segment with the model google/gemini-3-flash writes the Google
catalog into the openai provider block and registers both the google and
openai/google aliases for every Google model; the same URL shape with no
Google hint writes the native OpenAI block; no base URL and no model hint
writes the Anthropic block with the documented default primary model. -/
theorem C1_provider_classification (env : ScriptEnv) (c : Config) :
    (jsEndsWith (effectiveBaseUrl env) "/openai" = true →
      env.CF_AI_GATEWAY_MODEL = some "google/gemini-3-flash" →
      (updateConfig env c).providersOpenai =
        some (googleViaOpenaiBlock (effectiveBaseUrl env)) ∧
      (∀ m ∈ googleModels,
        aliasLookup (updateConfig env c).modelAliases ("google/" ++ m.id) = some m.name ∧
        aliasLookup (updateConfig env c).modelAliases ("openai/google/" ++ m.id) = some m.name)) ∧
    (jsEndsWith (effectiveBaseUrl env) "/openai" = true →
      jsIncludes (effectiveBaseUrl env) "gemini" = false →
      (truthy env.CF_AI_GATEWAY_MODEL &&
        jsStartsWith (strOfOpt env.CF_AI_GATEWAY_MODEL) "google/") = false →
      (updateConfig env c).providersOpenai =
        some (openaiBlockFor (effectiveBaseUrl env))) ∧
    (env.AI_GATEWAY_BASE_URL = none → env.ANTHROPIC_BASE_URL = none →
      env.CF_AI_GATEWAY_MODEL = none →
      (updateConfig env c).providersAnthropic =
        some (anthropicBlockFor
          (if truthy env.ANTHROPIC_API_KEY then env.ANTHROPIC_API_KEY else none)) ∧
      (updateConfig env c).primaryModel = some "anthropic/claude-sonnet-4-5-20250929") := by
  refine ⟨?_, ?_, ?_⟩
  · intro hEnd hModel
    have hG : isGoogleFlag env = true := by
      unfold isGoogleFlag
      rw [hModel]
      have hx : (truthy (some "google/gemini-3-flash") &&
          jsStartsWith (strOfOpt (some "google/gemini-3-flash")) "google/") = true := by decide
      rw [hx, Bool.or_true]
    unfold updateConfig applyProviderSection
    simp only [hG, hEnd, eq_self_iff_true, if_true]
    constructor
    · simp [googleViaOpenaiBlock]
    · exact fun m hm => googleDoubleAliases_lookup _ m hm
  · intro hEnd hGem hModel
    have hGoo := endsWith_openai_not_google _ hEnd
    have hG : isGoogleFlag env = false := by
      unfold isGoogleFlag
      rw [hGoo, hGem, hModel]
      rfl
    have hO : isOpenAIFlag env = true := by
      unfold isOpenAIFlag
      rw [hEnd, Bool.true_or]
    unfold updateConfig applyProviderSection
    simp only [hG, hO, Bool.false_eq_true, if_false, eq_self_iff_true, if_true]
    simp [openaiBlockFor]
  · intro h1 h2 hModel
    have base0 : effectiveBaseUrl env = "" := by
      unfold effectiveBaseUrl
      rw [h1, h2]
      rfl
    have hG : isGoogleFlag env = false := by
      unfold isGoogleFlag
      rw [base0, hModel]
      decide
    have hO : isOpenAIFlag env = false := by
      unfold isOpenAIFlag
      rw [base0, hModel]
      decide
    unfold updateConfig applyProviderSection
    simp only [hG, hO, Bool.false_eq_true, if_false]
    constructor
    · simp [base0, anthropicBlockFor, jsOrDefault]
      rfl
    · simp [hModel, truthy]

/-- C1 witness: the three decision-table rows at concrete environments. -/
theorem C1_provider_classification_witness :
    (updateConfig { AI_GATEWAY_BASE_URL := some "https://gw.example/openai", CF_AI_GATEWAY_MODEL := some "google/gemini-3-flash" } {}).providersOpenai =
      some (googleViaOpenaiBlock (effectiveBaseUrl { AI_GATEWAY_BASE_URL := some "https://gw.example/openai", CF_AI_GATEWAY_MODEL := some "google/gemini-3-flash" })) ∧
    aliasLookup (updateConfig { AI_GATEWAY_BASE_URL := some "https://gw.example/openai", CF_AI_GATEWAY_MODEL := some "google/gemini-3-flash" } {}).modelAliases
      "openai/google/gemini-3-flash" = some (some "Gemini 3 Flash") ∧
    (updateConfig { AI_GATEWAY_BASE_URL := some "https://gw.example/openai", CF_AI_GATEWAY_MODEL := some "openai/gpt-5.2" } {}).providersOpenai =
      some (openaiBlockFor (effectiveBaseUrl { AI_GATEWAY_BASE_URL := some "https://gw.example/openai", CF_AI_GATEWAY_MODEL := some "openai/gpt-5.2" })) ∧
    (updateConfig {} {}).primaryModel = some "anthropic/claude-sonnet-4-5-20250929" := by
  have hA := C1_provider_classification { AI_GATEWAY_BASE_URL := some "https://gw.example/openai", CF_AI_GATEWAY_MODEL := some "google/gemini-3-flash" } {}
  have hB := C1_provider_classification { AI_GATEWAY_BASE_URL := some "https://gw.example/openai", CF_AI_GATEWAY_MODEL := some "openai/gpt-5.2" } {}
  have hC := C1_provider_classification {} {}
  refine ⟨?_, ?_, ?_, ?_⟩
  · exact (hA.1 (by decide) rfl).1
  · have h := (hA.1 (by decide) rfl).2
      ⟨"gemini-3-flash", some "Gemini 3 Flash", 1000000⟩ (by decide)
    simpa using h.2
  · exact hB.2.1 (by decide) (by decide) (by decide)
  · exact (hC.2.2 rfl rfl rfl).2

/-- C6 counterexample: a starting config restored with a valid openai
provider block from a prior run, synthesized with an empty environment, ends
with two populated provider blocks (the stale openai one and the fresh
anthropic one), refuting the exactly-one invariant. -/
theorem C6_counterexample :
    populatedProviders (updateConfig {} { providersOpenai := some staleValidOpenai }) = 2 := by
  decide

/-- C6 (amended): for every starting config with no populated provider block,
synthesis ends with exactly one populated provider block; a stale block for a
different provider in a restored config is retained, so such configs can end
with more than one. -/
theorem C6_single_provider_from_clean (env : ScriptEnv) (c : Config)
    (ha : c.providersAnthropic = none) (ho : c.providersOpenai = none)
    (hg : c.providersGoogle = none) :
    populatedProviders (updateConfig env c) = 1 := by
  unfold updateConfig
  rw [purge_of_anthropic_none c ha]
  obtain ⟨g1, g2, g3⟩ := applyGatewaySection_providers env c
  obtain ⟨t1, t2, t3⟩ := applyTelegram_providers env (applyGatewaySection env c)
  obtain ⟨d1, d2, d3⟩ := applyDiscord_providers env (applyTelegram env (applyGatewaySection env c))
  obtain ⟨s1, s2, s3⟩ := applySlack_providers env (applyDiscord env (applyTelegram env (applyGatewaySection env c)))
  have e1 : (applySlack env (applyDiscord env (applyTelegram env (applyGatewaySection env c)))).providersAnthropic = none := by
    rw [s1, d1, t1, g1, ha]
  have e2 : (applySlack env (applyDiscord env (applyTelegram env (applyGatewaySection env c)))).providersOpenai = none := by
    rw [s2, d2, t2, g2, ho]
  have e3 : (applySlack env (applyDiscord env (applyTelegram env (applyGatewaySection env c)))).providersGoogle = none := by
    rw [s3, d3, t3, g3, hg]
  unfold applyProviderSection
  by_cases hG : isGoogleFlag env = true
  · by_cases hE : jsEndsWith (effectiveBaseUrl env) "/openai" = true
    · simp [populatedProviders, hG, hE, e1, e3]
    · simp [populatedProviders, hG, hE, e1, e2]
  · by_cases hO : isOpenAIFlag env = true
    · simp [populatedProviders, hG, hO, e1, e3]
    · simp [populatedProviders, hG, hO, e2, e3]

/-- C6 amended witness: synthesis from a fresh empty config and environment
leaves exactly one populated provider block. -/
theorem C6_single_provider_from_clean_witness :
    populatedProviders (updateConfig {} {}) = 1 :=
  C6_single_provider_from_clean {} {} rfl rfl rfl

/-- C8 counterexample: a persisted openai provider block whose model entry
lacks the display name survives the whole synthesis untouched (empty
environment, so the anthropic branch runs), refuting the claim that every
structurally invalid provider block is purged. -/
theorem C8_counterexample :
    (updateConfig {} { providersOpenai := some staleInvalidOpenai }).providersOpenai =
      some staleInvalidOpenai ∧
    hasInvalidModels staleInvalidOpenai.models = true := by
  constructor <;> decide

/-- C8 (amended): the purge step deletes the anthropic provider block when
any of its model entries lacks the required display name, and never touches
the openai or google blocks. -/
theorem C8_purge_anthropic_only (c : Config) :
    (∀ b, c.providersAnthropic = some b → hasInvalidModels b.models = true →
      (purgeBrokenAnthropic c).providersAnthropic = none) ∧
    (purgeBrokenAnthropic c).providersOpenai = c.providersOpenai ∧
    (purgeBrokenAnthropic c).providersGoogle = c.providersGoogle := by
  refine ⟨?_, ?_, ?_⟩
  · intro b hb hinv
    unfold purgeBrokenAnthropic
    rw [hb]
    simp [hinv]
  · unfold purgeBrokenAnthropic
    cases hc : c.providersAnthropic with
    | none => rfl
    | some b => split <;> first | (split <;> rfl) | rfl
  · unfold purgeBrokenAnthropic
    cases hc : c.providersAnthropic with
    | none => rfl
    | some b => split <;> first | (split <;> rfl) | rfl

/-- C8 amended witness: a broken anthropic block is purged while an equally
broken openai block in the same config is left in place. -/
theorem C8_purge_anthropic_only_witness :
    (purgeBrokenAnthropic { providersAnthropic := some staleInvalidAnthropic, providersOpenai := some staleInvalidOpenai }).providersAnthropic = none ∧
    (purgeBrokenAnthropic { providersAnthropic := some staleInvalidAnthropic, providersOpenai := some staleInvalidOpenai }).providersOpenai = some staleInvalidOpenai := by
  constructor
  · exact (C8_purge_anthropic_only _).1 staleInvalidAnthropic rfl (by decide)
  · exact (C8_purge_anthropic_only _).2.1
